import Mathlib

/-!
Shallow embedding of `src/lib.rs` of the imgui-dx11-renderer crate.

GPU objects (buffers, shaders, views, samplers, state objects) are modelled as
natural-number handles; floating-point quantities (`f32`) are modelled as
rationals, which is exact for every comparison and arithmetic operation the
source performs on the inputs considered here; device-context mutations are
modelled as a trace of `Call` events plus an explicit `ContextState` record on
which the events act.  Fallible device/context operations (`CreateBuffer`,
`Map`) are driven by oracles collected in `Env`.
-/

namespace ImguiDx11

/-- `const FONT_TEX_ID: usize = !0;` on a 64-bit target. -/
def FONT_TEX_ID : Nat := 2 ^ 64 - 1

/-- `const VERTEX_BUF_ADD_CAPACITY: usize = 5000;` -/
def VERTEX_BUF_ADD_CAPACITY : Nat := 5000

/-- `const INDEX_BUF_ADD_CAPACITY: usize = 10000;` -/
def INDEX_BUF_ADD_CAPACITY : Nat := 10000

/-- Numeric value of `D3D11_PRIMITIVE_TOPOLOGY_TRIANGLELIST`. -/
def TRIANGLELIST : Nat := 4

/-- Numeric value of `DXGI_FORMAT_R16_UINT` (`DrawIdx` is `u16`). -/
def R16_UINT_FORMAT : Nat := 57

/-- `mem::size_of::<DrawVert>()`: two `[f32; 2]` fields plus a packed color. -/
def DRAW_VERT_STRIDE : Nat := 20

/-- Rust `as i32` float-to-int conversion truncates toward zero; on a
normalized rational this is truncating division of numerator by denominator. -/
def truncQ (q : ℚ) : ℤ := q.num.tdiv (q.den : ℤ)

/-- `windows::Win32::Foundation::RECT`. -/
structure Rect where
  left : ℤ
  top : ℤ
  right : ℤ
  bottom : ℤ
  deriving DecidableEq

/-- `D3D11_VIEWPORT`. -/
structure Viewport where
  topLeftX : ℚ
  topLeftY : ℚ
  width : ℚ
  height : ℚ
  minDepth : ℚ
  maxDepth : ℚ
  deriving DecidableEq

/-- A draw command's clip rectangle `[x1, y1, x2, y2]` in UI coordinates. -/
structure ClipRect where
  x1 : ℚ
  y1 : ℚ
  x2 : ℚ
  y2 : ℚ
  deriving DecidableEq

/-- `imgui::DrawCmd`: an indexed draw, a render-state reset, or an opaque host
callback (whose payload the renderer never inspects). -/
inductive DrawCmd where
  | elements (count : Nat) (clipRect : ClipRect) (textureId : Nat)
  | resetRenderState
  | rawCallback
  deriving DecidableEq

/-- One imgui draw list: its vertex data, index data and command stream
(vertices and indices are opaque payloads here; only lengths and counts are
inspected by the renderer logic under study). -/
structure DrawList where
  vtxBuffer : List Nat
  idxBuffer : List Nat
  commands : List DrawCmd
  deriving DecidableEq

/-- `imgui::DrawData` as consumed by `Renderer::render`. -/
structure DrawData where
  displayPos : ℚ × ℚ
  displaySize : ℚ × ℚ
  framebufferScale : ℚ × ℚ
  totalVtxCount : Nat
  totalIdxCount : Nat
  drawLists : List DrawList
  deriving DecidableEq

/-- Model of the external `imgui::Textures` registry (texture id →
shader-resource-view handle) used through `Renderer::textures_mut`: an
association list in which `replace` stores a binding under a caller-chosen id
and `get` returns the most recent binding. -/
structure Textures where
  entries : List (Nat × Nat)
  deriving DecidableEq

def Textures.empty : Textures := ⟨[]⟩

def Textures.get (t : Textures) (id : Nat) : Option Nat :=
  (t.entries.find? (fun p => p.1 == id)).map (·.2)

def Textures.replace (t : Textures) (id v : Nat) : Textures :=
  ⟨(id, v) :: t.entries⟩

/-- `struct Buffer(ID3D11Buffer, usize)`: a GPU buffer handle together with its
element capacity. -/
structure Buffer where
  buf : Nat
  len : Nat
  deriving DecidableEq

/-- The persistent fields of `struct Renderer` that the render path reads. -/
structure Renderer where
  vertexShader : Nat
  pixelShader : Nat
  inputLayout : Nat
  constantBuffer : Nat
  blendState : Nat
  rasterizerState : Nat
  depthStencilState : Nat
  fontResourceView : Nat
  fontSampler : Nat
  vertexBuffer : Buffer
  indexBuffer : Buffer
  textures : Textures
  deriving DecidableEq

/-- Error values surfaced by the render path: `DXGI_ERROR_INVALID_CALL` from a
failed texture lookup, a failed `Map`, and a failed `CreateBuffer`. -/
inductive Err where
  | invalidCall
  | mapFail
  | bufferCreate
  deriving DecidableEq

/-- Oracles deciding the outcome of fallible device/context operations:
`allocVtx`/`allocIdx` give the new buffer handle for a `CreateBuffer` request
of the given element count (`none` = creation fails), `mapOk` decides whether
`Map` succeeds on a given buffer handle. -/
structure Env where
  allocVtx : Nat → Option Nat
  allocIdx : Nat → Option Nat
  mapOk : Nat → Bool

/-- One device-context call issued by the renderer, with its arguments. -/
inductive Call where
  | setScissor (r : Rect)
  | setViewports (v : Viewport)
  | setRasterizer (s : Option Nat)
  | setBlend (s : Option Nat) (factor : ℚ) (mask : Nat)
  | setDepthStencil (s : Option Nat) (ref : Nat)
  | setPSResources (start : Nat) (views : List Nat)
  | setSamplers (start : Nat) (samplers : List Nat)
  | setPSShader (s : Option Nat) (insts : List Nat)
  | setVSShader (s : Option Nat) (insts : List Nat)
  | setVSConstantBuffers (start : Nat) (bufs : List Nat)
  | setGSShader (s : Option Nat) (insts : List Nat)
  | setHSShader (s : Option Nat) (insts : List Nat)
  | setDSShader (s : Option Nat) (insts : List Nat)
  | setCSShader (s : Option Nat) (insts : List Nat)
  | setTopology (t : Nat)
  | setIndexBuffer (b : Option Nat) (fmt ofs : Nat)
  | setVertexBuffers (start : Nat) (b : Option Nat) (stride ofs : Nat)
  | setInputLayout (l : Option Nat)
  | drawIndexed (count firstIndex vertexBase : Nat)
  | mapBuffer (b : Nat)
  | unmapBuffer (b : Nat)
  | writeConstants (m : List (List ℚ))
  | rawCallbackCall
  deriving DecidableEq

/-- The orthographic projection matrix written by `write_buffers`
(rows as laid out in the source; `0.5 : f32` is exactly `1/2`). -/
def mvp (l r t b : ℚ) : List (List ℚ) :=
  [[2 / (r - l), 0, 0, 0],
   [0, 2 / (t - b), 0, 0],
   [0, 0, 1/2, 0],
   [(r + l) / (l - r), (t + b) / (b - t), 1/2, 1]]

/-- The projection matrix `write_buffers` derives from a frame's display
position and size (`l`, `r`, `t`, `b` as in the source). -/
def ddMvp (dd : DrawData) : List (List ℚ) :=
  mvp dd.displayPos.1 (dd.displayPos.1 + dd.displaySize.1)
    dd.displayPos.2 (dd.displayPos.2 + dd.displaySize.2)

def matEntry (m : List (List ℚ)) (i j : Nat) : ℚ := (m.getD i []).getD j 0

/-- Multiply the homogeneous row vector `[x, y, 0, 1]` by a 4×4 matrix and keep
the x and y components of the result. -/
def transformXY (m : List (List ℚ)) (x y : ℚ) : ℚ × ℚ :=
  (x * matEntry m 0 0 + y * matEntry m 1 0 + 0 * matEntry m 2 0 + 1 * matEntry m 3 0,
   x * matEntry m 0 1 + y * matEntry m 1 1 + 0 * matEntry m 2 1 + 1 * matEntry m 3 1)

/-- The pixel scissor rectangle computed in `render_impl` for a command's clip
rectangle: subtract the display offset, multiply by the framebuffer scale, and
truncate each coordinate with `as i32`. -/
def scissorOf (off scale : ℚ × ℚ) (c : ClipRect) : Rect :=
  { left := truncQ ((c.x1 - off.1) * scale.1)
    top := truncQ ((c.y1 - off.2) * scale.2)
    right := truncQ ((c.x2 - off.1) * scale.1)
    bottom := truncQ ((c.y2 - off.2) * scale.2) }

/-- `write_buffers`: map vertex, index and constant buffers in source order;
the first failing `Map` aborts with the error, with no intervening `Unmap`.
(The data copies into mapped memory are not context calls and are not traced;
the projection-matrix store is traced as `writeConstants`.) -/
def writeBuffers (env : Env) (r : Renderer) (dd : DrawData) :
    List Call × Except Err Unit :=
  if env.mapOk r.vertexBuffer.buf = false then
    ([.mapBuffer r.vertexBuffer.buf], .error .mapFail)
  else if env.mapOk r.indexBuffer.buf = false then
    ([.mapBuffer r.vertexBuffer.buf, .mapBuffer r.indexBuffer.buf], .error .mapFail)
  else if env.mapOk r.constantBuffer = false then
    ([.mapBuffer r.vertexBuffer.buf, .mapBuffer r.indexBuffer.buf,
      .unmapBuffer r.vertexBuffer.buf, .unmapBuffer r.indexBuffer.buf,
      .mapBuffer r.constantBuffer], .error .mapFail)
  else
    ([.mapBuffer r.vertexBuffer.buf, .mapBuffer r.indexBuffer.buf,
      .unmapBuffer r.vertexBuffer.buf, .unmapBuffer r.indexBuffer.buf,
      .mapBuffer r.constantBuffer, .writeConstants (ddMvp dd),
      .unmapBuffer r.constantBuffer], .ok ())

/-- `setup_render_state`: the fixed pipeline configuration, in source order. -/
def setupCalls (r : Renderer) (dd : DrawData) : List Call :=
  [ .setViewports ⟨0, 0, dd.displaySize.1 * dd.framebufferScale.1,
      dd.displaySize.2 * dd.framebufferScale.2, 0, 1⟩,
    .setInputLayout (some r.inputLayout),
    .setVertexBuffers 0 (some r.vertexBuffer.buf) DRAW_VERT_STRIDE 0,
    .setIndexBuffer (some r.indexBuffer.buf) R16_UINT_FORMAT 0,
    .setTopology TRIANGLELIST,
    .setVSShader (some r.vertexShader) [],
    .setVSConstantBuffers 0 [r.constantBuffer],
    .setPSShader (some r.pixelShader) [],
    .setSamplers 0 [r.fontSampler],
    .setGSShader none [],
    .setHSShader none [],
    .setDSShader none [],
    .setCSShader none [],
    .setBlend (some r.blendState) 0 4294967295,
    .setDepthStencil (some r.depthStencilState) 0,
    .setRasterizer (some r.rasterizerState) ]

/-- Texture resolution in `render_impl`: the font sentinel short-circuits to
the font view, anything else goes through the registry. -/
def resolveTexture (r : Renderer) (id : Nat) : Option Nat :=
  if id = FONT_TEX_ID then some r.fontResourceView else r.textures.get id

/-- The mutable locals of `render_impl`'s translation loop. -/
structure TransState where
  vertexOffset : Nat
  indexOffset : Nat
  lastTex : Nat
  deriving DecidableEq

/-- Translate one draw command, producing the calls it issues, the updated
loop state, and an error if its texture cannot be resolved (in which case the
`?` operator aborts before any call of this command is issued). -/
def trCmd (r : Renderer) (dd : DrawData) (st : TransState) :
    DrawCmd → List Call × TransState × Option Err
  | .elements count clip texId =>
    if texId ≠ st.lastTex then
      match resolveTexture r texId with
      | none => ([], st, some .invalidCall)
      | some tex =>
        ([.setPSResources 0 [tex],
          .setScissor (scissorOf dd.displayPos dd.framebufferScale clip),
          .drawIndexed count st.indexOffset st.vertexOffset],
         { st with lastTex := texId, indexOffset := st.indexOffset + count }, none)
    else
      ([.setScissor (scissorOf dd.displayPos dd.framebufferScale clip),
        .drawIndexed count st.indexOffset st.vertexOffset],
       { st with indexOffset := st.indexOffset + count }, none)
  | .resetRenderState => (setupCalls r dd, st, none)
  | .rawCallback => ([.rawCallbackCall], st, none)

/-- Translate the commands of one draw list; an error stops the walk. -/
def trCmds (r : Renderer) (dd : DrawData) (st : TransState) :
    List DrawCmd → List Call × TransState × Option Err
  | [] => ([], st, none)
  | c :: cs =>
    let res := trCmd r dd st c
    match res.2.2 with
    | some e => (res.1, res.2.1, some e)
    | none =>
      let rest := trCmds r dd res.2.1 cs
      (res.1 ++ rest.1, rest.2.1, rest.2.2)

/-- Translate the draw lists; after each completed list the vertex offset
advances by that list's full vertex count. -/
def trLists (r : Renderer) (dd : DrawData) (st : TransState) :
    List DrawList → List Call × TransState × Option Err
  | [] => ([], st, none)
  | l :: ls =>
    let res := trCmds r dd st l.commands
    match res.2.2 with
    | some e => (res.1, res.2.1, some e)
    | none =>
      let st2 : TransState :=
        { res.2.1 with vertexOffset := res.2.1.vertexOffset + l.vtxBuffer.length }
      let rest := trLists r dd st2 ls
      (res.1 ++ rest.1, rest.2.1, rest.2.2)

/-- Initial loop state of `render_impl`: offsets 0, `last_tex` the font id. -/
def initTransState : TransState := ⟨0, 0, FONT_TEX_ID⟩

/-- `render_impl`: bind the font view, then translate all draw lists. -/
def renderImpl (r : Renderer) (dd : DrawData) : List Call × Except Err Unit :=
  let res := trLists r dd initTransState dd.drawLists
  (Call.setPSResources 0 [r.fontResourceView] :: res.1,
   match res.2.2 with
   | none => .ok ()
   | some e => .error e)

/-- Vertex-buffer growth at the top of `render`: reallocate (count + slack)
only when the current capacity is below the frame's total vertex count; a
failed `CreateBuffer` propagates before the old buffer is replaced. -/
def growVertex (env : Env) (r : Renderer) (dd : DrawData) : Except Err Renderer :=
  if r.vertexBuffer.len < dd.totalVtxCount then
    match env.allocVtx dd.totalVtxCount with
    | none => .error .bufferCreate
    | some h =>
      .ok { r with vertexBuffer := ⟨h, dd.totalVtxCount + VERTEX_BUF_ADD_CAPACITY⟩ }
  else .ok r

/-- Index-buffer growth, analogous to `growVertex`. -/
def growIndex (env : Env) (r : Renderer) (dd : DrawData) : Except Err Renderer :=
  if r.indexBuffer.len < dd.totalIdxCount then
    match env.allocIdx dd.totalIdxCount with
    | none => .error .bufferCreate
    | some h =>
      .ok { r with indexBuffer := ⟨h, dd.totalIdxCount + INDEX_BUF_ADD_CAPACITY⟩ }
  else .ok r

/-- The part of `render` bracketed by the state guard: upload, fixed state
setup, then command translation, each aborting the rest on error. -/
def renderBody (env : Env) (r : Renderer) (dd : DrawData) :
    List Call × Except Err Unit :=
  let wb := writeBuffers env r dd
  match wb.2 with
  | .error e => (wb.1, .error e)
  | .ok _ =>
    let ri := renderImpl r dd
    (wb.1 ++ setupCalls r dd ++ ri.1, ri.2)

/-- `Renderer::render`: early-exit on a non-positive display size, grow the
two buffers, then run the guarded body.  Returns the renderer after the call
(`&mut self`), the trace of context calls issued by upload/setup/translation,
and the result. -/
def render (env : Env) (r : Renderer) (dd : DrawData) :
    Renderer × List Call × Except Err Unit :=
  if dd.displaySize.1 ≤ 0 ∨ dd.displaySize.2 ≤ 0 then (r, [], .ok ())
  else
    match growVertex env r dd with
    | .error e => (r, [], .error e)
    | .ok r1 =>
      match growIndex env r1 dd with
      | .error e => (r1, [], .error e)
      | .ok r2 =>
        let body := renderBody env r2 dd
        (r2, body.1, body.2)

/-- Fold a sequence of frames through `render`, keeping the renderer state. -/
def renderSeq (env : Env) (r : Renderer) : List DrawData → Renderer
  | [] => r
  | dd :: dds => renderSeq env (render env r dd).1 dds

/-- The device-context pipeline slots tracked by `StateBackup` (resource,
sampler and constant-buffer slots are functions from slot index to the bound
handle, `none` meaning nothing is bound there). -/
structure ContextState where
  topology : Nat
  indexBuffer : Option Nat
  indexBufferFormat : Nat
  indexBufferOffset : Nat
  vertexBuffer : Option Nat
  vertexBufferStride : Nat
  vertexBufferOffset : Nat
  inputLayout : Option Nat
  vsShader : Option Nat
  vsInstances : Option Nat
  vsConstantBuffers : Nat → Option Nat
  gsShader : Option Nat
  gsInstances : Option Nat
  viewports : Viewport
  scissorRects : Rect
  rasterizerState : Option Nat
  psResources : Nat → Option Nat
  psSamplers : Nat → Option Nat
  psShader : Option Nat
  psInstances : Option Nat
  blendState : Option Nat
  blendFactor : ℚ
  sampleMask : Nat
  depthStencilState : Option Nat
  stencilRef : Nat

/-- Semantics of a `*Set*` call on an array of slots: slots `start`,
`start + 1`, … are overwritten by the supplied views, the rest are kept. -/
def writeSlots (f : Nat → Option Nat) (start : Nat) (vs : List Nat) :
    Nat → Option Nat :=
  fun i => if start ≤ i ∧ i - start < vs.length then vs.get? (i - start) else f i

/-- Effect of one context call on the tracked slots (calls that touch no
tracked slot — draws, maps, HS/DS/CS shader binds, the constant write and the
host callback — leave the record unchanged; a callback mutating state would
only strengthen the divergences proved below). -/
def applyCall (s : ContextState) : Call → ContextState
  | .setScissor r => { s with scissorRects := r }
  | .setViewports v => { s with viewports := v }
  | .setRasterizer o => { s with rasterizerState := o }
  | .setBlend o f m => { s with blendState := o, blendFactor := f, sampleMask := m }
  | .setDepthStencil o ref => { s with depthStencilState := o, stencilRef := ref }
  | .setPSResources start vs => { s with psResources := writeSlots s.psResources start vs }
  | .setSamplers start vs => { s with psSamplers := writeSlots s.psSamplers start vs }
  | .setPSShader o insts => { s with psShader := o, psInstances := insts.head? }
  | .setVSShader o insts => { s with vsShader := o, vsInstances := insts.head? }
  | .setVSConstantBuffers start vs =>
    { s with vsConstantBuffers := writeSlots s.vsConstantBuffers start vs }
  | .setGSShader o insts => { s with gsShader := o, gsInstances := insts.head? }
  | .setHSShader _ _ => s
  | .setDSShader _ _ => s
  | .setCSShader _ _ => s
  | .setTopology t => { s with topology := t }
  | .setIndexBuffer b fmt ofs =>
    { s with indexBuffer := b, indexBufferFormat := fmt, indexBufferOffset := ofs }
  | .setVertexBuffers _ b stride ofs =>
    { s with vertexBuffer := b, vertexBufferStride := stride, vertexBufferOffset := ofs }
  | .setInputLayout l => { s with inputLayout := l }
  | .drawIndexed _ _ _ => s
  | .mapBuffer _ => s
  | .unmapBuffer _ => s
  | .writeConstants _ => s
  | .rawCallbackCall => s

def applyCalls (s : ContextState) (cs : List Call) : ContextState :=
  cs.foldl applyCall s

/-- `struct StateBackup` (minus the context handle): the snapshot fields, with
the three `Vec` fields holding whatever was read into them. -/
structure StateBackup where
  scissorRects : Rect
  viewports : Viewport
  rasterizerState : Option Nat
  blendState : Option Nat
  blendFactor : ℚ
  sampleMask : Nat
  depthStencilState : Option Nat
  stencilRef : Nat
  shaderResource : List (Option Nat)
  sampler : List (Option Nat)
  psShader : Option Nat
  psInstances : Option Nat
  vsShader : Option Nat
  vsInstances : Option Nat
  constantBuffer : List (Option Nat)
  gsShader : Option Nat
  gsInstances : Option Nat
  indexBuffer : Option Nat
  indexBufferOffset : Nat
  indexBufferFormat : Nat
  vertexBuffer : Option Nat
  vertexBufferOffset : Nat
  vertexBufferStride : Nat
  topology : Nat
  inputLayout : Option Nat

/-- Semantics of a `*Get*` call on an array of slots: it fills exactly as many
entries as the caller-provided array holds. -/
def readSlots (f : Nat → Option Nat) (start n : Nat) : List (Option Nat) :=
  (List.range n).map fun i => f (start + i)

/-- `StateBackup::backup`.  The three `Vec` fields come from
`Self::default()`, i.e. `Vec::default()`, which is empty — so
`PSGetShaderResources`, `PSGetSamplers` and `VSGetConstantBuffers` are each
passed a zero-length array and capture zero slots. -/
def backup (s : ContextState) : StateBackup :=
  { topology := s.topology
    indexBuffer := s.indexBuffer
    indexBufferFormat := s.indexBufferFormat
    indexBufferOffset := s.indexBufferOffset
    vertexBuffer := s.vertexBuffer
    vertexBufferStride := s.vertexBufferStride
    vertexBufferOffset := s.vertexBufferOffset
    inputLayout := s.inputLayout
    vsShader := s.vsShader
    vsInstances := s.vsInstances
    constantBuffer := readSlots s.vsConstantBuffers 0 0
    gsShader := s.gsShader
    gsInstances := s.gsInstances
    viewports := s.viewports
    scissorRects := s.scissorRects
    rasterizerState := s.rasterizerState
    shaderResource := readSlots s.psResources 0 0
    sampler := readSlots s.psSamplers 0 0
    psShader := s.psShader
    psInstances := s.psInstances
    blendState := s.blendState
    blendFactor := s.blendFactor
    sampleMask := s.sampleMask
    depthStencilState := s.depthStencilState
    stencilRef := s.stencilRef }

/-- `StateBackup::filter_none`: drop the `None` entries and keep the rest,
compacted. -/
def filterNone (l : List (Option Nat)) : List Nat := l.filterMap id

/-- The context calls issued by `StateBackup::restore`, in source order.  Note
that the topology argument is the literal `D3D11_PRIMITIVE_TOPOLOGY_TRIANGLELIST`
and the blend sample-mask argument is the literal `0xFFFFFFFF` — not the
captured `self.topology` / `self.sample_mask`. -/
def restoreCalls (b : StateBackup) : List Call :=
  [ .setScissor b.scissorRects,
    .setViewports b.viewports,
    .setRasterizer b.rasterizerState,
    .setBlend b.blendState b.blendFactor 4294967295,
    .setDepthStencil b.depthStencilState b.stencilRef,
    .setPSResources 0 (filterNone b.shaderResource),
    .setSamplers 0 (filterNone b.sampler),
    .setPSShader b.psShader b.psInstances.toList,
    .setVSShader b.vsShader b.vsInstances.toList,
    .setVSConstantBuffers 0 (filterNone b.constantBuffer),
    .setGSShader b.gsShader b.gsInstances.toList,
    .setTopology TRIANGLELIST,
    .setIndexBuffer b.indexBuffer b.indexBufferFormat b.indexBufferOffset,
    .setVertexBuffers 0 b.vertexBuffer b.vertexBufferStride b.vertexBufferOffset,
    .setInputLayout b.inputLayout ]

/-- `StateBackup::restore` as a state transformer. -/
def restore (b : StateBackup) (s : ContextState) : ContextState :=
  applyCalls s (restoreCalls b)

/-- The device-context state after `render` returns, starting from `s0`: on
the early exit and on buffer-growth failure the guard was never armed and the
context is untouched; otherwise the snapshot is taken, the body's calls run,
and the guard's drop restores the snapshot (also when the body errored). -/
def renderFinalContext (env : Env) (r : Renderer) (dd : DrawData)
    (s0 : ContextState) : ContextState :=
  if dd.displaySize.1 ≤ 0 ∨ dd.displaySize.2 ≤ 0 then s0
  else
    match growVertex env r dd with
    | .error _ => s0
    | .ok r1 =>
      match growIndex env r1 dd with
      | .error _ => s0
      | .ok r2 => restore (backup s0) (applyCalls s0 (renderBody env r2 dd).1)

/-! ### Spec-side denotations used to state the claims -/

/-- The element count an executed command contributes to the index offset. -/
def cmdElemCount : DrawCmd → Nat
  | .elements n _ _ => n
  | _ => 0

/-- Sum of the element counts of the previously executed commands. -/
def prevElemSum (pre : List DrawCmd) : Nat := (pre.map cmdElemCount).sum

/-- Sum of the full vertex-buffer lengths of the previously completed lists. -/
def prevVtxSum (ls : List DrawList) : Nat :=
  (ls.map (fun l => l.vtxBuffer.length)).sum

/-- The (count, first-index, base-vertex) triples the spec predicts for the
commands of one list: an `Elements` command draws with first-index equal to
the sum of the element counts of all previously executed commands of the
frame (`pre`) and base-vertex equal to the vertex total of the previously
completed lists (`vbase`). -/
def specCmds (pre : List DrawCmd) (vbase : Nat) :
    List DrawCmd → List (Nat × Nat × Nat)
  | [] => []
  | c :: cs =>
    (match c with
     | .elements n _ _ => [(n, prevElemSum pre, vbase)]
     | _ => []) ++ specCmds (pre ++ [c]) vbase cs

/-- The predicted draw triples of a whole frame, list by list. -/
def specLists (pre : List DrawCmd) (prevLs : List DrawList) :
    List DrawList → List (Nat × Nat × Nat)
  | [] => []
  | l :: ls =>
    specCmds pre (prevVtxSum prevLs) l.commands ++
      specLists (pre ++ l.commands) (prevLs ++ [l]) ls

/-- The (count, first-index, base-vertex) arguments of the indexed draw calls
occurring in a trace, in order. -/
def drawTriples (cs : List Call) : List (Nat × Nat × Nat) :=
  cs.filterMap fun c =>
    match c with
    | .drawIndexed n fi bv => some (n, fi, bv)
    | _ => none

/-- The scissor rectangles set in a trace, in order. -/
def scissorEvents (cs : List Call) : List Rect :=
  cs.filterMap fun c =>
    match c with
    | .setScissor r => some r
    | _ => none

/-- The clip rectangles of the `Elements` commands of a command list. -/
def elemClipRects (cs : List DrawCmd) : List ClipRect :=
  cs.filterMap fun c =>
    match c with
    | .elements _ clip _ => some clip
    | _ => none

/-- All commands of a frame, in execution order. -/
def flatCmds (dd : DrawData) : List DrawCmd :=
  (dd.drawLists.map (fun l => l.commands)).flatten

/-- A texture id the translator can resolve: the font sentinel or a registered
id. -/
def goodTex (r : Renderer) (t : Nat) : Prop :=
  t = FONT_TEX_ID ∨ (r.textures.get t).isSome = true

/-- A command whose execution cannot fail: any non-`Elements` command, or an
`Elements` command whose texture id resolves. -/
def goodCmd (r : Renderer) : DrawCmd → Prop
  | .elements _ _ t => goodTex r t
  | _ => True

/-! ### Concrete fixtures for witnesses and counterexamples -/

/-- An environment in which every device/context operation succeeds. -/
def envOK : Env := ⟨fun n => some (n + 100), fun n => some (n + 200), fun _ => true⟩

/-- An environment in which only buffer handle 10 can be mapped. -/
def envMapIdxFail : Env :=
  ⟨fun n => some (n + 100), fun n => some (n + 200), fun b => b == 10⟩

/-- An environment in which vertex-buffer creation always fails. -/
def envNoVtxAlloc : Env := ⟨fun _ => none, fun n => some (n + 200), fun _ => true⟩

/-- A renderer fresh out of `Renderer::new` (buffers at the initial slack
capacities, empty registry), with distinct concrete handles. -/
def baseRenderer : Renderer :=
  { vertexShader := 1, pixelShader := 2, inputLayout := 3, constantBuffer := 4,
    blendState := 5, rasterizerState := 6, depthStencilState := 9,
    fontResourceView := 7, fontSampler := 8,
    vertexBuffer := ⟨10, 5000⟩, indexBuffer := ⟨11, 10000⟩,
    textures := Textures.empty }

/-- `baseRenderer` with one texture registered under id 5 (handle 50). -/
def regRenderer : Renderer := { baseRenderer with textures := ⟨[(5, 50)]⟩ }

/-- A concrete pre-existing context state (topology `POINTLIST` = 1, sample
mask 0, nothing bound in the resource/sampler slots). -/
def ctx0 : ContextState :=
  { topology := 1, indexBuffer := some 21, indexBufferFormat := 42,
    indexBufferOffset := 3, vertexBuffer := some 22, vertexBufferStride := 16,
    vertexBufferOffset := 5, inputLayout := some 23, vsShader := some 24,
    vsInstances := some 25, vsConstantBuffers := fun _ => none,
    gsShader := some 26, gsInstances := none,
    viewports := ⟨0, 0, 640, 480, 0, 1⟩, scissorRects := ⟨1, 2, 3, 4⟩,
    rasterizerState := some 27, psResources := fun _ => none,
    psSamplers := fun _ => none, psShader := some 28, psInstances := none,
    blendState := some 29, blendFactor := 1/4, sampleMask := 0,
    depthStencilState := some 30, stencilRef := 11 }

def clip0 : ClipRect := ⟨0, 0, 100, 100⟩

/-- An empty frame with a positive display size. -/
def ddSmall : DrawData := ⟨(0, 0), (100, 100), (1, 1), 0, 0, []⟩

/-- A frame with display size (0, 0). -/
def ddDegenerate : DrawData := ⟨(0, 0), (0, 0), (1, 1), 0, 0, []⟩

/-- A frame with display size (0, 0) but 6000 vertices / 12000 indices. -/
def ddBigDegenerate : DrawData := ⟨(0, 0), (0, 0), (1, 1), 6000, 12000, []⟩

/-- Display position (0,0) and size (800,600), no draw lists. -/
def dd800 : DrawData := ⟨(0, 0), (800, 600), (1, 1), 0, 0, []⟩

/-- A frame whose single command references the unregistered texture id 5. -/
def ddUnknownTex : DrawData :=
  ⟨(0, 0), (100, 100), (1, 1), 3, 3, [⟨[1, 2, 3], [0, 1, 2], [.elements 3 clip0 5]⟩]⟩

/-- Two draw lists exercising the offset bookkeeping: list one has 4 vertices
and two `Elements` commands (3 indices each, font then texture 5), list two
has 2 vertices and one 6-index command on texture 5. -/
def ddTwoLists : DrawData :=
  ⟨(0, 0), (100, 100), (1, 1), 6, 12,
   [⟨[1, 2, 3, 4], [0, 1, 2, 0, 2, 3], [.elements 3 clip0 FONT_TEX_ID, .elements 3 clip0 5]⟩,
    ⟨[1, 2], [0, 1, 0, 1, 0, 1], [.elements 6 clip0 5]⟩]⟩

/-- Display position (10,10), framebuffer scale (2,2), one command with clip
rect (20,20,30,30). -/
def ddClip : DrawData :=
  ⟨(10, 10), (100, 100), (2, 2), 3, 3,
   [⟨[1, 2, 3], [0, 1, 2], [.elements 3 ⟨20, 20, 30, 30⟩ FONT_TEX_ID]⟩]⟩

/-- Two well-formed frames for the buffer-growth witness (6000/12000 then
7000/14000 vertices/indices). -/
def ddGrow1 : DrawData := ⟨(0, 0), (100, 100), (1, 1), 6000, 12000, []⟩

def ddGrow2 : DrawData := ⟨(0, 0), (100, 100), (1, 1), 7000, 14000, []⟩

/-! ## Theorems -/

/-- C4: a frame whose display size is non-positive in either dimension makes
`render` return `Ok(())` having issued no context call, with the renderer
(hence both buffer capacities) and every tracked context slot unchanged. -/
theorem render_degenerate_is_noop (env : Env) (r : Renderer) (dd : DrawData)
    (s0 : ContextState) (h : dd.displaySize.1 ≤ 0 ∨ dd.displaySize.2 ≤ 0) :
    render env r dd = (r, [], .ok ()) ∧ renderFinalContext env r dd s0 = s0 := by
  constructor
  · unfold render
    rw [if_pos h]
  · unfold renderFinalContext
    rw [if_pos h]

theorem render_degenerate_is_noop_witness :
    (ddDegenerate.displaySize.1 ≤ 0 ∨ ddDegenerate.displaySize.2 ≤ 0) ∧
    (render envOK baseRenderer ddDegenerate = (baseRenderer, [], .ok ()) ∧
      renderFinalContext envOK baseRenderer ddDegenerate ctx0 = ctx0) := by
  have h : ddDegenerate.displaySize.1 ≤ 0 ∨ ddDegenerate.displaySize.2 ≤ 0 :=
    Or.inl (by norm_num [ddDegenerate])
  exact ⟨h, render_degenerate_is_noop envOK baseRenderer ddDegenerate ctx0 h⟩

/-- C1 (refuting the claim): the guard's restore does not write the captured
topology and sample mask back.  Starting from a context with topology
`POINTLIST` (1) and sample mask 0, a successful empty frame ends with
topology `TRIANGLELIST` (4) and sample mask `0xFFFFFFFF`, because
`StateBackup::restore` passes those literals instead of the captured
`self.topology` / `self.sample_mask`. -/
theorem restore_hardcodes_topology_and_sample_mask :
    ctx0.topology = 1 ∧ ctx0.sampleMask = 0 ∧
    (renderFinalContext envOK baseRenderer ddSmall ctx0).topology = TRIANGLELIST ∧
    (renderFinalContext envOK baseRenderer ddSmall ctx0).sampleMask = 4294967295 :=
  ⟨rfl, rfl, rfl, rfl⟩

/-- C2 (refuting the claim): pixel-shader resource slot 0 and sampler slot 0
were empty before the call, yet after `render` returns they hold the font view
and the font sampler: `backup` captures the slot arrays into empty `Vec`s and
`restore`'s `filter_none` drops `None` entries, so empty slots are never
cleared and the renderer's bindings leak. -/
theorem restore_leaves_stale_slot_bindings :
    ctx0.psResources 0 = none ∧ ctx0.psSamplers 0 = none ∧
    (renderFinalContext envOK baseRenderer ddSmall ctx0).psResources 0 =
      some baseRenderer.fontResourceView ∧
    (renderFinalContext envOK baseRenderer ddSmall ctx0).psSamplers 0 =
      some baseRenderer.fontSampler :=
  ⟨rfl, rfl, rfl, rfl⟩

/-- C9 (counterexample): registering a texture under the reserved font id is
accepted by the registry, not rejected — the entry is stored and retrievable. -/
theorem font_sentinel_registration_accepted :
    Textures.empty.get FONT_TEX_ID = none ∧
    (Textures.empty.replace FONT_TEX_ID 55).get FONT_TEX_ID = some 55 :=
  ⟨rfl, by decide⟩

/-- C9 (amended): the registry API accepts a registration under the font
sentinel, but the renderer ignores such an entry — texture resolution for the
sentinel id always yields the font atlas view, never a registry lookup. -/
theorem font_sentinel_ignored_not_rejected (reg : Textures) (v : Nat)
    (r : Renderer) :
    (reg.replace FONT_TEX_ID v).get FONT_TEX_ID = some v ∧
    resolveTexture r FONT_TEX_ID = some r.fontResourceView := by
  constructor
  · unfold Textures.get Textures.replace
    rw [List.find?_cons_of_pos _ (by simp)]
    rfl
  · unfold resolveTexture
    rw [if_pos rfl]

/-- Corner behaviour of the source's projection matrix, for any display
rectangle with nonzero extent. -/
theorem mvpCornersXY (l t sx sy : ℚ) (hx : sx ≠ 0) (hy : sy ≠ 0) :
    transformXY (mvp l (l + sx) t (t + sy)) l t = (-1, 1) ∧
    transformXY (mvp l (l + sx) t (t + sy)) (l + sx) (t + sy) = (1, -1) := by
  have e1 : l + sx - l = sx := by ring
  have e2 : l - (l + sx) = -sx := by ring
  have e3 : t - (t + sy) = -sy := by ring
  have e4 : t + sy - t = sy := by ring
  constructor <;>
  · simp only [transformXY, mvp, matEntry, List.getD_cons_zero, List.getD_cons_succ,
      Prod.mk.injEq, e1, e2, e3, e4, mul_zero, zero_mul, add_zero, zero_add, one_mul,
      div_neg]
    constructor <;>
    · rw [eq_comm]
      field_simp
      ring

/-- C8: the projection matrix `write_buffers` stores maps the display
rectangle's top-left corner to clip coordinates (-1, 1) and its bottom-right
corner to (1, -1) — window-space y grows downward, clip-space y upward. -/
theorem projection_maps_display_rect_to_clip (dd : DrawData)
    (h1 : 0 < dd.displaySize.1) (h2 : 0 < dd.displaySize.2) :
    transformXY (ddMvp dd) dd.displayPos.1 dd.displayPos.2 = (-1, 1) ∧
    transformXY (ddMvp dd) (dd.displayPos.1 + dd.displaySize.1)
      (dd.displayPos.2 + dd.displaySize.2) = (1, -1) :=
  mvpCornersXY dd.displayPos.1 dd.displayPos.2 dd.displaySize.1 dd.displaySize.2
    (ne_of_gt h1) (ne_of_gt h2)

theorem projection_maps_display_rect_to_clip_witness :
    (0 < dd800.displaySize.1 ∧ 0 < dd800.displaySize.2) ∧
    transformXY (ddMvp dd800) 0 0 = (-1, 1) ∧
    transformXY (ddMvp dd800) 800 600 = (1, -1) := by
  have h1 : (0 : ℚ) < dd800.displaySize.1 := by norm_num [dd800]
  have h2 : (0 : ℚ) < dd800.displaySize.2 := by norm_num [dd800]
  have h := projection_maps_display_rect_to_clip dd800 h1 h2
  have e1 : dd800.displayPos.1 + dd800.displaySize.1 = 800 := by norm_num [dd800]
  have e2 : dd800.displayPos.2 + dd800.displaySize.2 = 600 := by norm_num [dd800]
  have e3 : dd800.displayPos.1 = 0 := by norm_num [dd800]
  have e4 : dd800.displayPos.2 = 0 := by norm_num [dd800]
  rw [e1, e2, e3, e4] at h
  exact ⟨⟨h1, h2⟩, h.1, h.2⟩

/-- Unfolding `render` when neither growth step fails. -/
theorem render_unfold_ok (env : Env) (r r1 r2 : Renderer) (dd : DrawData)
    (hne : ¬(dd.displaySize.1 ≤ 0 ∨ dd.displaySize.2 ≤ 0))
    (hgv : growVertex env r dd = .ok r1)
    (hgi : growIndex env r1 dd = .ok r2) :
    render env r dd = (r2, renderBody env r2 dd) := by
  unfold render
  rw [if_neg hne]
  split
  · next e heq =>
    rw [hgv] at heq
    cases heq
  · next r1a heq =>
    rw [hgv] at heq
    cases heq
    split
    · next e heq2 =>
      rw [hgi] at heq2
      cases heq2
    · next r2a heq2 =>
      rw [hgi] at heq2
      cases heq2
      rfl

/-- Unfolding `render` when vertex-buffer growth fails. -/
theorem render_unfold_vtxFail (env : Env) (r : Renderer) (dd : DrawData) (e : Err)
    (hne : ¬(dd.displaySize.1 ≤ 0 ∨ dd.displaySize.2 ≤ 0))
    (hgv : growVertex env r dd = .error e) :
    render env r dd = (r, [], .error e) := by
  unfold render
  rw [if_neg hne]
  split
  · next e heq =>
    rw [hgv] at heq
    cases heq
    rfl
  · next r1a heq =>
    rw [hgv] at heq
    cases heq

/-- Unfolding `render` when index-buffer growth fails. -/
theorem render_unfold_idxFail (env : Env) (r r1 : Renderer) (dd : DrawData) (e : Err)
    (hne : ¬(dd.displaySize.1 ≤ 0 ∨ dd.displaySize.2 ≤ 0))
    (hgv : growVertex env r dd = .ok r1)
    (hgi : growIndex env r1 dd = .error e) :
    render env r dd = (r1, [], .error e) := by
  unfold render
  rw [if_neg hne]
  split
  · next e heq =>
    rw [hgv] at heq
    cases heq
  · next r1a heq =>
    rw [hgv] at heq
    cases heq
    split
    · next e heq2 =>
      rw [hgi] at heq2
      cases heq2
      rfl
    · next r2a heq2 =>
      rw [hgi] at heq2
      cases heq2

/-- C10: if mapping the vertex buffer succeeds but mapping the index buffer
fails, `render` returns the map error having issued exactly the two `Map`
calls — in particular no `Unmap` of the vertex buffer is ever issued on this
error path. -/
theorem index_map_failure_skips_vertex_unmap (env : Env) (r : Renderer)
    (dd : DrawData)
    (h1 : 0 < dd.displaySize.1) (h2 : 0 < dd.displaySize.2)
    (hv : dd.totalVtxCount ≤ r.vertexBuffer.len)
    (hi : dd.totalIdxCount ≤ r.indexBuffer.len)
    (hmv : env.mapOk r.vertexBuffer.buf = true)
    (hmi : env.mapOk r.indexBuffer.buf = false) :
    (render env r dd).2.2 = Except.error Err.mapFail ∧
    (render env r dd).2.1 =
      [Call.mapBuffer r.vertexBuffer.buf, Call.mapBuffer r.indexBuffer.buf] ∧
    ∀ b, Call.unmapBuffer b ∉ (render env r dd).2.1 := by
  have hne : ¬(dd.displaySize.1 ≤ 0 ∨ dd.displaySize.2 ≤ 0) := by
    push_neg
    exact ⟨h1, h2⟩
  have hgv : growVertex env r dd = .ok r := by
    unfold growVertex
    rw [if_neg (Nat.not_lt.mpr hv)]
  have hgi : growIndex env r dd = .ok r := by
    unfold growIndex
    rw [if_neg (Nat.not_lt.mpr hi)]
  have hwb : writeBuffers env r dd =
      ([Call.mapBuffer r.vertexBuffer.buf, Call.mapBuffer r.indexBuffer.buf],
        .error .mapFail) := by
    unfold writeBuffers
    rw [hmv, hmi]
    simp
  have hb : renderBody env r dd =
      ([Call.mapBuffer r.vertexBuffer.buf, Call.mapBuffer r.indexBuffer.buf],
        .error .mapFail) := by
    unfold renderBody
    rw [hwb]
  have hr : render env r dd =
      (r, [Call.mapBuffer r.vertexBuffer.buf, Call.mapBuffer r.indexBuffer.buf],
        .error .mapFail) := by
    rw [render_unfold_ok env r r r dd hne hgv hgi, hb]
  rw [hr]
  refine ⟨rfl, rfl, ?_⟩
  intro b hmem
  simp at hmem

theorem index_map_failure_skips_vertex_unmap_witness :
    ((0 : ℚ) < ddSmall.displaySize.1 ∧ (0 : ℚ) < ddSmall.displaySize.2 ∧
      ddSmall.totalVtxCount ≤ baseRenderer.vertexBuffer.len ∧
      ddSmall.totalIdxCount ≤ baseRenderer.indexBuffer.len ∧
      envMapIdxFail.mapOk baseRenderer.vertexBuffer.buf = true ∧
      envMapIdxFail.mapOk baseRenderer.indexBuffer.buf = false) ∧
    (render envMapIdxFail baseRenderer ddSmall).2.2 = Except.error Err.mapFail ∧
    (render envMapIdxFail baseRenderer ddSmall).2.1 =
      [Call.mapBuffer 10, Call.mapBuffer 11] ∧
    ∀ b, Call.unmapBuffer b ∉ (render envMapIdxFail baseRenderer ddSmall).2.1 := by
  have h1 : (0 : ℚ) < ddSmall.displaySize.1 := by norm_num [ddSmall]
  have h2 : (0 : ℚ) < ddSmall.displaySize.2 := by norm_num [ddSmall]
  have h := index_map_failure_skips_vertex_unmap envMapIdxFail baseRenderer ddSmall
    h1 h2 (by decide) (by decide) rfl rfl
  exact ⟨⟨h1, h2, by decide, by decide, rfl, rfl⟩, h.1, h.2.1, h.2.2⟩

/-! ### Structural lemmas about the command translator -/

theorem trCmds_cons_err (r : Renderer) (dd : DrawData) (st : TransState)
    (c : DrawCmd) (cs : List DrawCmd) (e : Err)
    (h : (trCmd r dd st c).2.2 = some e) :
    trCmds r dd st (c :: cs) = ((trCmd r dd st c).1, (trCmd r dd st c).2.1, some e) := by
  simp only [trCmds]
  rw [h]

theorem trCmds_cons_ok (r : Renderer) (dd : DrawData) (st : TransState)
    (c : DrawCmd) (cs : List DrawCmd)
    (h : (trCmd r dd st c).2.2 = none) :
    trCmds r dd st (c :: cs) =
      ((trCmd r dd st c).1 ++ (trCmds r dd (trCmd r dd st c).2.1 cs).1,
        (trCmds r dd (trCmd r dd st c).2.1 cs).2) := by
  simp only [trCmds]
  rw [h]

theorem trLists_cons_err (r : Renderer) (dd : DrawData) (st : TransState)
    (l : DrawList) (ls : List DrawList) (e : Err)
    (h : (trCmds r dd st l.commands).2.2 = some e) :
    trLists r dd st (l :: ls) =
      ((trCmds r dd st l.commands).1, (trCmds r dd st l.commands).2.1, some e) := by
  simp only [trLists]
  rw [h]

theorem trLists_cons_ok (r : Renderer) (dd : DrawData) (st : TransState)
    (l : DrawList) (ls : List DrawList)
    (h : (trCmds r dd st l.commands).2.2 = none) :
    trLists r dd st (l :: ls) =
      ((trCmds r dd st l.commands).1 ++
        (trLists r dd
          { (trCmds r dd st l.commands).2.1 with
            vertexOffset := (trCmds r dd st l.commands).2.1.vertexOffset + l.vtxBuffer.length }
          ls).1,
        (trLists r dd
          { (trCmds r dd st l.commands).2.1 with
            vertexOffset := (trCmds r dd st l.commands).2.1.vertexOffset + l.vtxBuffer.length }
          ls).2) := by
  simp only [trLists]
  rw [h]

theorem trCmds_cons_none (r : Renderer) (dd : DrawData) (st : TransState)
    (c : DrawCmd) (cs : List DrawCmd)
    (h : (trCmds r dd st (c :: cs)).2.2 = none) :
    (trCmd r dd st c).2.2 = none ∧
      (trCmds r dd (trCmd r dd st c).2.1 cs).2.2 = none := by
  cases hc : (trCmd r dd st c).2.2 with
  | some e =>
    rw [trCmds_cons_err r dd st c cs e hc] at h
    simp at h
  | none =>
    rw [trCmds_cons_ok r dd st c cs hc] at h
    exact ⟨rfl, h⟩

theorem trLists_cons_none (r : Renderer) (dd : DrawData) (st : TransState)
    (l : DrawList) (ls : List DrawList)
    (h : (trLists r dd st (l :: ls)).2.2 = none) :
    (trCmds r dd st l.commands).2.2 = none ∧
      (trLists r dd
        { (trCmds r dd st l.commands).2.1 with
          vertexOffset := (trCmds r dd st l.commands).2.1.vertexOffset + l.vtxBuffer.length }
        ls).2.2 = none := by
  cases hc : (trCmds r dd st l.commands).2.2 with
  | some e =>
    rw [trLists_cons_err r dd st l ls e hc] at h
    simp at h
  | none =>
    rw [trLists_cons_ok r dd st l ls hc] at h
    exact ⟨rfl, h⟩

theorem trCmds_append (r : Renderer) (dd : DrawData) (st : TransState)
    (as bs : List DrawCmd) (h : (trCmds r dd st as).2.2 = none) :
    trCmds r dd st (as ++ bs) =
      ((trCmds r dd st as).1 ++ (trCmds r dd (trCmds r dd st as).2.1 bs).1,
        (trCmds r dd (trCmds r dd st as).2.1 bs).2) := by
  induction as generalizing st with
  | nil => simp [trCmds]
  | cons c cs ih =>
    obtain ⟨hc, hcs⟩ := trCmds_cons_none r dd st c cs h
    rw [List.cons_append, trCmds_cons_ok r dd st c (cs ++ bs) hc,
      trCmds_cons_ok r dd st c cs hc, ih _ hcs, List.append_assoc]

theorem trLists_append (r : Renderer) (dd : DrawData) (st : TransState)
    (as bs : List DrawList) (h : (trLists r dd st as).2.2 = none) :
    trLists r dd st (as ++ bs) =
      ((trLists r dd st as).1 ++ (trLists r dd (trLists r dd st as).2.1 bs).1,
        (trLists r dd (trLists r dd st as).2.1 bs).2) := by
  induction as generalizing st with
  | nil => simp [trLists]
  | cons l ls ih =>
    obtain ⟨hc, hls⟩ := trLists_cons_none r dd st l ls h
    rw [List.cons_append, trLists_cons_ok r dd st l (ls ++ bs) hc,
      trLists_cons_ok r dd st l ls hc, ih _ hls, List.append_assoc]

/-- A resolvable texture id has a resolution. -/
theorem resolveTexture_of_goodTex (r : Renderer) (t : Nat) (h : goodTex r t) :
    (resolveTexture r t).isSome = true := by
  cases h with
  | inl h => simp [resolveTexture, h]
  | inr h =>
    unfold resolveTexture
    split
    · rfl
    · exact h

/-- Translating a good command succeeds and keeps `last_tex` resolvable. -/
theorem trCmd_good (r : Renderer) (dd : DrawData) (st : TransState) (c : DrawCmd)
    (hst : goodTex r st.lastTex) (hc : goodCmd r c) :
    (trCmd r dd st c).2.2 = none ∧ goodTex r (trCmd r dd st c).2.1.lastTex := by
  cases c with
  | elements n clip t =>
    simp only [goodCmd] at hc
    by_cases ht : t = st.lastTex
    · simp only [trCmd, ht, ne_eq, not_true_eq_false, if_false, ite_false]
      exact ⟨trivial, hst⟩
    · obtain ⟨tex, htex⟩ := Option.isSome_iff_exists.mp (resolveTexture_of_goodTex r t hc)
      simp only [trCmd, ne_eq, ht, not_false_eq_true, if_true, ite_true, htex]
      exact ⟨trivial, hc⟩
  | resetRenderState => exact ⟨rfl, hst⟩
  | rawCallback => exact ⟨rfl, hst⟩

/-- Translating a list of good commands succeeds and keeps `last_tex`
resolvable. -/
theorem trCmds_good (r : Renderer) (dd : DrawData) (cs : List DrawCmd) :
    ∀ st : TransState, goodTex r st.lastTex → (∀ c ∈ cs, goodCmd r c) →
      (trCmds r dd st cs).2.2 = none ∧
        goodTex r (trCmds r dd st cs).2.1.lastTex := by
  induction cs with
  | nil =>
    intro st hst _
    exact ⟨rfl, hst⟩
  | cons c cs ih =>
    intro st hst hall
    have hc := hall c (List.mem_cons_self c cs)
    have h1 := trCmd_good r dd st c hst hc
    rw [trCmds_cons_ok r dd st c cs h1.1]
    exact ih (trCmd r dd st c).2.1 h1.2 (fun x hx => hall x (List.mem_cons_of_mem c hx))

/-- Translating draw lists whose commands are all good succeeds and keeps
`last_tex` resolvable. -/
theorem trLists_good (r : Renderer) (dd : DrawData) (ls : List DrawList) :
    ∀ st : TransState, goodTex r st.lastTex →
      (∀ l ∈ ls, ∀ c ∈ l.commands, goodCmd r c) →
      (trLists r dd st ls).2.2 = none ∧
        goodTex r (trLists r dd st ls).2.1.lastTex := by
  induction ls with
  | nil =>
    intro st hst _
    exact ⟨rfl, hst⟩
  | cons l ls ih =>
    intro st hst hall
    have h1 := trCmds_good r dd l.commands st hst
      (fun c hc => hall l (List.mem_cons_self l ls) c hc)
    rw [trLists_cons_ok r dd st l ls h1.1]
    exact ih _ h1.2 (fun x hx => hall x (List.mem_cons_of_mem l hx))

/-- At a command whose texture id is neither the font sentinel nor registered,
translation stops at once: no call of this command or any later one is
issued. -/
theorem trCmds_bad_head (r : Renderer) (dd : DrawData) (st : TransState)
    (n : Nat) (clip : ClipRect) (t : Nat) (cs2 : List DrawCmd)
    (hst : goodTex r st.lastTex)
    (ht : t ≠ FONT_TEX_ID) (hmiss : r.textures.get t = none) :
    trCmds r dd st (DrawCmd.elements n clip t :: cs2) = ([], st, some .invalidCall) := by
  have htne : t ≠ st.lastTex := by
    intro hc
    cases hst with
    | inl h =>
      rw [hc] at ht
      exact ht h
    | inr h =>
      rw [← hc, hmiss] at h
      simp at h
  have hres : resolveTexture r t = none := by
    simp [resolveTexture, ht, hmiss]
  have hcmd : trCmd r dd st (DrawCmd.elements n clip t) = ([], st, some .invalidCall) := by
    simp only [trCmd, ne_eq, htne, not_false_eq_true, if_true, ite_true, hres]
  rw [trCmds_cons_err r dd st _ cs2 Err.invalidCall (by rw [hcmd])]
  rw [hcmd]

/-- C3: a draw command whose texture id is not the font sentinel and is absent
from the registry makes `render_impl` return `DXGI_ERROR_INVALID_CALL`, and
the trace contains exactly the initial font bind plus the calls of the
commands before the offending one — zero binds, scissor sets or draws are
issued for it or for anything after it. -/
theorem unknown_texture_aborts_frame (r : Renderer) (dd : DrawData)
    (L1 : List DrawList) (vb ib : List Nat) (cs1 cs2 : List DrawCmd)
    (n : Nat) (clip : ClipRect) (t : Nat) (L2 : List DrawList)
    (hdl : dd.drawLists =
      L1 ++ ⟨vb, ib, cs1 ++ DrawCmd.elements n clip t :: cs2⟩ :: L2)
    (hgood1 : ∀ l ∈ L1, ∀ c ∈ l.commands, goodCmd r c)
    (hgood2 : ∀ c ∈ cs1, goodCmd r c)
    (ht : t ≠ FONT_TEX_ID) (hmiss : r.textures.get t = none) :
    (renderImpl r dd).2 = Except.error Err.invalidCall ∧
    (renderImpl r dd).1 =
      Call.setPSResources 0 [r.fontResourceView] ::
        ((trLists r dd initTransState L1).1 ++
          (trCmds r dd (trLists r dd initTransState L1).2.1 cs1).1) := by
  have hst0 : goodTex r initTransState.lastTex := Or.inl rfl
  have hA := trLists_good r dd L1 initTransState hst0 hgood1
  have hB := trCmds_good r dd cs1 (trLists r dd initTransState L1).2.1 hA.2 hgood2
  have hbad := trCmds_bad_head r dd
    (trCmds r dd (trLists r dd initTransState L1).2.1 cs1).2.1 n clip t cs2 hB.2 ht hmiss
  have hcmds : trCmds r dd (trLists r dd initTransState L1).2.1
      (cs1 ++ DrawCmd.elements n clip t :: cs2) =
      ((trCmds r dd (trLists r dd initTransState L1).2.1 cs1).1,
        (trCmds r dd (trLists r dd initTransState L1).2.1 cs1).2.1,
        some .invalidCall) := by
    rw [trCmds_append r dd _ cs1 _ hB.1, hbad]
    simp
  have hlist : trLists r dd (trLists r dd initTransState L1).2.1
      (DrawList.mk vb ib (cs1 ++ DrawCmd.elements n clip t :: cs2) :: L2) =
      ((trCmds r dd (trLists r dd initTransState L1).2.1 cs1).1,
        (trCmds r dd (trLists r dd initTransState L1).2.1 cs1).2.1,
        some .invalidCall) := by
    rw [trLists_cons_err r dd _ _ L2 Err.invalidCall (by rw [hcmds])]
    rw [hcmds]
  have hall : trLists r dd initTransState dd.drawLists =
      ((trLists r dd initTransState L1).1 ++
        (trCmds r dd (trLists r dd initTransState L1).2.1 cs1).1,
        (trCmds r dd (trLists r dd initTransState L1).2.1 cs1).2.1,
        some .invalidCall) := by
    rw [hdl, trLists_append r dd initTransState L1 _ hA.1, hlist]
  constructor
  · show (match (trLists r dd initTransState dd.drawLists).2.2 with
      | none => Except.ok ()
      | some e => Except.error e) = Except.error Err.invalidCall
    rw [hall]
  · show Call.setPSResources 0 [r.fontResourceView] ::
        (trLists r dd initTransState dd.drawLists).1 = _
    rw [hall]

theorem unknown_texture_aborts_frame_witness :
    (ddUnknownTex.drawLists =
      [] ++ ⟨[1, 2, 3], [0, 1, 2], [] ++ DrawCmd.elements 3 clip0 5 :: []⟩ :: [] ∧
      5 ≠ FONT_TEX_ID ∧ baseRenderer.textures.get 5 = none) ∧
    (renderImpl baseRenderer ddUnknownTex).2 = Except.error Err.invalidCall ∧
    (renderImpl baseRenderer ddUnknownTex).1 = [Call.setPSResources 0 [7]] := by
  have h := unknown_texture_aborts_frame baseRenderer ddUnknownTex
    [] [1, 2, 3] [0, 1, 2] [] [] 3 clip0 5 []
    rfl (by simp) (by simp) (by decide) rfl
  exact ⟨⟨rfl, by decide, rfl⟩, h.1, h.2⟩

theorem scissorEvents_append (a b : List Call) :
    scissorEvents (a ++ b) = scissorEvents a ++ scissorEvents b := by
  simp [scissorEvents]

/-- `setup_render_state` never touches the scissor rectangle. -/
theorem scissorEvents_setup (r : Renderer) (dd : DrawData) :
    scissorEvents (setupCalls r dd) = [] := rfl

theorem trCmd_scissor (r : Renderer) (dd : DrawData) (st : TransState)
    (c : DrawCmd) (h : (trCmd r dd st c).2.2 = none) :
    scissorEvents (trCmd r dd st c).1 =
      (elemClipRects [c]).map (scissorOf dd.displayPos dd.framebufferScale) := by
  cases c with
  | elements n clip t =>
    by_cases ht : t = st.lastTex
    · simp [trCmd, ht, scissorEvents, elemClipRects]
    · cases hres : resolveTexture r t with
      | none =>
        exfalso
        simp [trCmd, ht, hres] at h
      | some tex => simp [trCmd, ht, hres, scissorEvents, elemClipRects]
  | resetRenderState => simp [trCmd, scissorEvents_setup, elemClipRects]
  | rawCallback => simp [trCmd, scissorEvents, elemClipRects]

theorem trCmds_scissor (r : Renderer) (dd : DrawData) (cs : List DrawCmd) :
    ∀ st : TransState, (trCmds r dd st cs).2.2 = none →
      scissorEvents (trCmds r dd st cs).1 =
        (elemClipRects cs).map (scissorOf dd.displayPos dd.framebufferScale) := by
  induction cs with
  | nil =>
    intro st _
    simp [trCmds, scissorEvents, elemClipRects]
  | cons c cs ih =>
    intro st h
    obtain ⟨hc, hcs⟩ := trCmds_cons_none r dd st c cs h
    rw [trCmds_cons_ok r dd st c cs hc, scissorEvents_append,
      trCmd_scissor r dd st c hc, ih _ hcs]
    cases c <;> simp [elemClipRects]

theorem trLists_scissor (r : Renderer) (dd : DrawData) (ls : List DrawList) :
    ∀ st : TransState, (trLists r dd st ls).2.2 = none →
      scissorEvents (trLists r dd st ls).1 =
        (elemClipRects ((ls.map (fun l => l.commands)).flatten)).map
          (scissorOf dd.displayPos dd.framebufferScale) := by
  induction ls with
  | nil =>
    intro st _
    simp [trLists, scissorEvents, elemClipRects]
  | cons l ls ih =>
    intro st h
    obtain ⟨hc, hls⟩ := trLists_cons_none r dd st l ls h
    rw [trLists_cons_ok r dd st l ls hc, scissorEvents_append,
      trCmds_scissor r dd l.commands st hc, ih _ hls]
    simp [elemClipRects, List.filterMap_append]

/-- C7: on a successful frame, the scissor rectangles set on the context are
exactly, in order, the transforms of the clip rectangles of the frame's
`Elements` commands: subtract the display offset, scale by the framebuffer
scale, truncate to integer. -/
theorem scissor_rects_follow_clip_transform (r : Renderer) (dd : DrawData)
    (h : (renderImpl r dd).2 = Except.ok ()) :
    scissorEvents (renderImpl r dd).1 =
      (elemClipRects (flatCmds dd)).map
        (scissorOf dd.displayPos dd.framebufferScale) := by
  have herr : (trLists r dd initTransState dd.drawLists).2.2 = none := by
    cases he : (trLists r dd initTransState dd.drawLists).2.2 with
    | none => rfl
    | some e =>
      exfalso
      simp [renderImpl, he] at h
  show scissorEvents (Call.setPSResources 0 [r.fontResourceView] ::
      (trLists r dd initTransState dd.drawLists).1) = _
  have hhead : scissorEvents (Call.setPSResources 0 [r.fontResourceView] ::
      (trLists r dd initTransState dd.drawLists).1) =
      scissorEvents (trLists r dd initTransState dd.drawLists).1 := by
    simp [scissorEvents]
  rw [hhead, trLists_scissor r dd dd.drawLists initTransState herr]
  rfl

theorem scissor_rects_follow_clip_transform_witness :
    (renderImpl baseRenderer ddClip).2 = Except.ok () ∧
    scissorEvents (renderImpl baseRenderer ddClip).1 =
      (elemClipRects (flatCmds ddClip)).map
        (scissorOf ddClip.displayPos ddClip.framebufferScale) ∧
    scissorEvents (renderImpl baseRenderer ddClip).1 =
      [⟨20, 20, 40, 40⟩] := by
  have hok : (renderImpl baseRenderer ddClip).2 = Except.ok () := rfl
  refine ⟨hok, scissor_rects_follow_clip_transform baseRenderer ddClip hok, ?_⟩
  simp [renderImpl, trLists, trCmds, trCmd, initTransState, ddClip, scissorEvents,
    scissorOf, resolveTexture, truncQ, baseRenderer, FONT_TEX_ID]
  norm_num

theorem drawTriples_append (a b : List Call) :
    drawTriples (a ++ b) = drawTriples a ++ drawTriples b := by
  simp [drawTriples]

/-- `setup_render_state` issues no draw call. -/
theorem drawTriples_setup (r : Renderer) (dd : DrawData) :
    drawTriples (setupCalls r dd) = [] := rfl

theorem prevElemSum_append (a b : List DrawCmd) :
    prevElemSum (a ++ b) = prevElemSum a + prevElemSum b := by
  simp [prevElemSum]

theorem prevVtxSum_append (a b : List DrawList) :
    prevVtxSum (a ++ b) = prevVtxSum a + prevVtxSum b := by
  simp [prevVtxSum]

/-- A successfully translated `Elements` command draws once with the current
offsets and advances the index offset by its count. -/
theorem trCmd_elements_spec (r : Renderer) (dd : DrawData) (st : TransState)
    (n : Nat) (clip : ClipRect) (t : Nat)
    (h : (trCmd r dd st (DrawCmd.elements n clip t)).2.2 = none) :
    drawTriples (trCmd r dd st (DrawCmd.elements n clip t)).1 =
      [(n, st.indexOffset, st.vertexOffset)] ∧
    (trCmd r dd st (DrawCmd.elements n clip t)).2.1.indexOffset =
      st.indexOffset + n ∧
    (trCmd r dd st (DrawCmd.elements n clip t)).2.1.vertexOffset =
      st.vertexOffset := by
  by_cases ht : t = st.lastTex
  · simp [trCmd, ht, drawTriples]
  · cases hres : resolveTexture r t with
    | none =>
      exfalso
      simp [trCmd, ht, hres] at h
    | some tex => simp [trCmd, ht, hres, drawTriples]

/-- The first-index of every draw issued while translating a command list is
the element-count sum of all commands executed before it, and the base-vertex
never changes within a list. -/
theorem trCmds_draws (r : Renderer) (dd : DrawData) (cs : List DrawCmd) :
    ∀ (st : TransState) (pre : List DrawCmd),
      st.indexOffset = prevElemSum pre →
      (trCmds r dd st cs).2.2 = none →
      drawTriples (trCmds r dd st cs).1 = specCmds pre st.vertexOffset cs ∧
      (trCmds r dd st cs).2.1.indexOffset = prevElemSum (pre ++ cs) ∧
      (trCmds r dd st cs).2.1.vertexOffset = st.vertexOffset := by
  induction cs with
  | nil =>
    intro st pre hidx _
    refine ⟨rfl, ?_, rfl⟩
    rw [List.append_nil]
    exact hidx
  | cons c cs ih =>
    intro st pre hidx h
    obtain ⟨hc, hcs⟩ := trCmds_cons_none r dd st c cs h
    rw [trCmds_cons_ok r dd st c cs hc, drawTriples_append]
    cases c with
    | elements n clip t =>
      have he := trCmd_elements_spec r dd st n clip t hc
      have hidx2 : (trCmd r dd st (DrawCmd.elements n clip t)).2.1.indexOffset =
          prevElemSum (pre ++ [DrawCmd.elements n clip t]) := by
        rw [he.2.1, prevElemSum_append, hidx]
        simp [prevElemSum, cmdElemCount]
      have ihh := ih (trCmd r dd st (DrawCmd.elements n clip t)).2.1
        (pre ++ [DrawCmd.elements n clip t]) hidx2 hcs
      refine ⟨?_, ?_, ?_⟩
      · rw [he.1, ihh.1, he.2.2]
        simp [specCmds, hidx]
      · rw [ihh.2.1]
        simp
      · rw [ihh.2.2, he.2.2]
    | resetRenderState =>
      have he1 : drawTriples (trCmd r dd st DrawCmd.resetRenderState).1 = [] :=
        drawTriples_setup r dd
      have he2 : (trCmd r dd st DrawCmd.resetRenderState).2.1 = st := rfl
      have hidx2 : (trCmd r dd st DrawCmd.resetRenderState).2.1.indexOffset =
          prevElemSum (pre ++ [DrawCmd.resetRenderState]) := by
        rw [he2, prevElemSum_append, hidx]
        simp [prevElemSum, cmdElemCount]
      have ihh := ih (trCmd r dd st DrawCmd.resetRenderState).2.1
        (pre ++ [DrawCmd.resetRenderState]) hidx2 hcs
      refine ⟨?_, ?_, ?_⟩
      · rw [he1, ihh.1, he2]
        simp [specCmds]
      · rw [ihh.2.1]
        simp
      · rw [ihh.2.2, he2]
    | rawCallback =>
      have he1 : drawTriples (trCmd r dd st DrawCmd.rawCallback).1 = [] := rfl
      have he2 : (trCmd r dd st DrawCmd.rawCallback).2.1 = st := rfl
      have hidx2 : (trCmd r dd st DrawCmd.rawCallback).2.1.indexOffset =
          prevElemSum (pre ++ [DrawCmd.rawCallback]) := by
        rw [he2, prevElemSum_append, hidx]
        simp [prevElemSum, cmdElemCount]
      have ihh := ih (trCmd r dd st DrawCmd.rawCallback).2.1
        (pre ++ [DrawCmd.rawCallback]) hidx2 hcs
      refine ⟨?_, ?_, ?_⟩
      · rw [he1, ihh.1, he2]
        simp [specCmds]
      · rw [ihh.2.1]
        simp
      · rw [ihh.2.2, he2]

/-- Frame-level bookkeeping: draws carry the accumulated index offset over the
whole frame and a base-vertex equal to the vertex total of the completed
lists. -/
theorem trLists_draws (r : Renderer) (dd : DrawData) (ls : List DrawList) :
    ∀ (st : TransState) (pre : List DrawCmd) (prevLs : List DrawList),
      st.indexOffset = prevElemSum pre →
      st.vertexOffset = prevVtxSum prevLs →
      (trLists r dd st ls).2.2 = none →
      drawTriples (trLists r dd st ls).1 = specLists pre prevLs ls ∧
      (trLists r dd st ls).2.1.indexOffset =
        prevElemSum (pre ++ (ls.map (fun l => l.commands)).flatten) ∧
      (trLists r dd st ls).2.1.vertexOffset = prevVtxSum (prevLs ++ ls) := by
  induction ls with
  | nil =>
    intro st pre prevLs hidx hvtx _
    refine ⟨rfl, ?_, ?_⟩
    · simpa using hidx
    · simpa using hvtx
  | cons l ls ih =>
    intro st pre prevLs hidx hvtx h
    obtain ⟨hc, hls⟩ := trLists_cons_none r dd st l ls h
    rw [trLists_cons_ok r dd st l ls hc, drawTriples_append]
    have hcm := trCmds_draws r dd l.commands st pre hidx hc
    have hidx2 : ({ (trCmds r dd st l.commands).2.1 with
        vertexOffset := (trCmds r dd st l.commands).2.1.vertexOffset +
          l.vtxBuffer.length } : TransState).indexOffset =
        prevElemSum (pre ++ l.commands) := hcm.2.1
    have hvtx2 : ({ (trCmds r dd st l.commands).2.1 with
        vertexOffset := (trCmds r dd st l.commands).2.1.vertexOffset +
          l.vtxBuffer.length } : TransState).vertexOffset =
        prevVtxSum (prevLs ++ [l]) := by
      show (trCmds r dd st l.commands).2.1.vertexOffset + l.vtxBuffer.length = _
      rw [hcm.2.2, hvtx, prevVtxSum_append]
      simp [prevVtxSum]
    have ihh := ih _ (pre ++ l.commands) (prevLs ++ [l]) hidx2 hvtx2 hls
    refine ⟨?_, ?_, ?_⟩
    · rw [hcm.1, ihh.1, hvtx]
      simp [specLists]
    · rw [ihh.2.1]
      simp
    · rw [ihh.2.2]
      simp

/-- C6: on a successful frame, the indexed draw calls carry exactly the
(count, first-index, base-vertex) triples predicted by the offset spec: each
first-index is the sum of the counts of the previously executed `Elements`
commands of the frame, each base-vertex the sum of the full vertex-buffer
lengths of the previously completed draw lists. -/
theorem draw_call_offset_bookkeeping (r : Renderer) (dd : DrawData)
    (h : (renderImpl r dd).2 = Except.ok ()) :
    drawTriples (renderImpl r dd).1 = specLists [] [] dd.drawLists := by
  have herr : (trLists r dd initTransState dd.drawLists).2.2 = none := by
    cases he : (trLists r dd initTransState dd.drawLists).2.2 with
    | none => rfl
    | some e =>
      exfalso
      simp [renderImpl, he] at h
  have hm := trLists_draws r dd dd.drawLists initTransState [] [] rfl rfl herr
  show drawTriples (Call.setPSResources 0 [r.fontResourceView] ::
      (trLists r dd initTransState dd.drawLists).1) = _
  have hhead : drawTriples (Call.setPSResources 0 [r.fontResourceView] ::
      (trLists r dd initTransState dd.drawLists).1) =
      drawTriples (trLists r dd initTransState dd.drawLists).1 := by
    simp [drawTriples]
  rw [hhead]
  exact hm.1

theorem draw_call_offset_bookkeeping_witness :
    (renderImpl regRenderer ddTwoLists).2 = Except.ok () ∧
    drawTriples (renderImpl regRenderer ddTwoLists).1 =
      specLists [] [] ddTwoLists.drawLists ∧
    drawTriples (renderImpl regRenderer ddTwoLists).1 =
      [(3, 0, 0), (3, 3, 0), (6, 6, 4)] := by
  have hok : (renderImpl regRenderer ddTwoLists).2 = Except.ok () := rfl
  exact ⟨hok, draw_call_offset_bookkeeping regRenderer ddTwoLists hok, by decide⟩

/-- Full characterization of a successful vertex-growth step. -/
theorem growVertex_ok_spec (env : Env) (r r1 : Renderer) (dd : DrawData)
    (h : growVertex env r dd = .ok r1) :
    r1.indexBuffer = r.indexBuffer ∧
    r.vertexBuffer.len ≤ r1.vertexBuffer.len ∧
    dd.totalVtxCount ≤ r1.vertexBuffer.len ∧
    (dd.totalVtxCount ≤ r.vertexBuffer.len → r1 = r) ∧
    (r.vertexBuffer.len < dd.totalVtxCount →
      r1.vertexBuffer.len = dd.totalVtxCount + VERTEX_BUF_ADD_CAPACITY) := by
  unfold growVertex at h
  by_cases hlt : r.vertexBuffer.len < dd.totalVtxCount
  · rw [if_pos hlt] at h
    cases halloc : env.allocVtx dd.totalVtxCount with
    | none =>
      rw [halloc] at h
      cases h
    | some a =>
      rw [halloc] at h
      cases h
      refine ⟨rfl, ?_, ?_, ?_, fun _ => rfl⟩
      · show r.vertexBuffer.len ≤ dd.totalVtxCount + VERTEX_BUF_ADD_CAPACITY
        omega
      · show dd.totalVtxCount ≤ dd.totalVtxCount + VERTEX_BUF_ADD_CAPACITY
        omega
      · intro hc
        omega
  · rw [if_neg hlt] at h
    cases h
    exact ⟨rfl, le_refl _, by omega, fun _ => rfl, fun hc => absurd hc hlt⟩

/-- Full characterization of a successful index-growth step. -/
theorem growIndex_ok_spec (env : Env) (r r1 : Renderer) (dd : DrawData)
    (h : growIndex env r dd = .ok r1) :
    r1.vertexBuffer = r.vertexBuffer ∧
    r.indexBuffer.len ≤ r1.indexBuffer.len ∧
    dd.totalIdxCount ≤ r1.indexBuffer.len ∧
    (dd.totalIdxCount ≤ r.indexBuffer.len → r1 = r) ∧
    (r.indexBuffer.len < dd.totalIdxCount →
      r1.indexBuffer.len = dd.totalIdxCount + INDEX_BUF_ADD_CAPACITY) := by
  unfold growIndex at h
  by_cases hlt : r.indexBuffer.len < dd.totalIdxCount
  · rw [if_pos hlt] at h
    cases halloc : env.allocIdx dd.totalIdxCount with
    | none =>
      rw [halloc] at h
      cases h
    | some a =>
      rw [halloc] at h
      cases h
      refine ⟨rfl, ?_, ?_, ?_, fun _ => rfl⟩
      · show r.indexBuffer.len ≤ dd.totalIdxCount + INDEX_BUF_ADD_CAPACITY
        omega
      · show dd.totalIdxCount ≤ dd.totalIdxCount + INDEX_BUF_ADD_CAPACITY
        omega
      · intro hc
        omega
  · rw [if_neg hlt] at h
    cases h
    exact ⟨rfl, le_refl _, by omega, fun _ => rfl, fun hc => absurd hc hlt⟩

/-- A growth step with an always-succeeding allocator cannot fail. -/
theorem growVertex_total (env : Env) (r : Renderer) (dd : DrawData)
    (ha : (env.allocVtx dd.totalVtxCount).isSome = true) :
    ∃ r1, growVertex env r dd = .ok r1 := by
  unfold growVertex
  split
  · obtain ⟨a, hav⟩ := Option.isSome_iff_exists.mp ha
    rw [hav]
    exact ⟨_, rfl⟩
  · exact ⟨r, rfl⟩

theorem growIndex_total (env : Env) (r : Renderer) (dd : DrawData)
    (ha : (env.allocIdx dd.totalIdxCount).isSome = true) :
    ∃ r1, growIndex env r dd = .ok r1 := by
  unfold growIndex
  split
  · obtain ⟨a, hav⟩ := Option.isSome_iff_exists.mp ha
    rw [hav]
    exact ⟨_, rfl⟩
  · exact ⟨r, rfl⟩

/-- One `render` call never shrinks either buffer capacity. -/
theorem render_capacity_step (env : Env) (r : Renderer) (dd : DrawData) :
    r.vertexBuffer.len ≤ (render env r dd).1.vertexBuffer.len ∧
    r.indexBuffer.len ≤ (render env r dd).1.indexBuffer.len := by
  by_cases hd : dd.displaySize.1 ≤ 0 ∨ dd.displaySize.2 ≤ 0
  · unfold render
    rw [if_pos hd]
    exact ⟨le_refl _, le_refl _⟩
  · cases hgv : growVertex env r dd with
    | error e =>
      rw [render_unfold_vtxFail env r dd e hd hgv]
      exact ⟨le_refl _, le_refl _⟩
    | ok r1 =>
      have h1 := growVertex_ok_spec env r r1 dd hgv
      cases hgi : growIndex env r1 dd with
      | error e =>
        rw [render_unfold_idxFail env r r1 dd e hd hgv hgi]
        refine ⟨h1.2.1, ?_⟩
        rw [h1.1]
      | ok r2 =>
        have h2 := growIndex_ok_spec env r1 r2 dd hgi
        rw [render_unfold_ok env r r1 r2 dd hd hgv hgi]
        constructor
        · show r.vertexBuffer.len ≤ r2.vertexBuffer.len
          rw [h2.1]
          exact h1.2.1
        · show r.indexBuffer.len ≤ r2.indexBuffer.len
          have := h2.2.1
          rw [h1.1] at this
          exact this

/-- With positive display size and succeeding allocators, one `render` call
leaves both capacities at or above the frame's totals. -/
theorem render_capacity_reach (env : Env) (r : Renderer) (dd : DrawData)
    (hd : ¬(dd.displaySize.1 ≤ 0 ∨ dd.displaySize.2 ≤ 0))
    (hav : ∀ n, (env.allocVtx n).isSome = true)
    (hai : ∀ n, (env.allocIdx n).isSome = true) :
    dd.totalVtxCount ≤ (render env r dd).1.vertexBuffer.len ∧
    dd.totalIdxCount ≤ (render env r dd).1.indexBuffer.len := by
  obtain ⟨r1, hgv⟩ := growVertex_total env r dd (hav _)
  obtain ⟨r2, hgi⟩ := growIndex_total env r1 dd (hai _)
  have h1 := growVertex_ok_spec env r r1 dd hgv
  have h2 := growIndex_ok_spec env r1 r2 dd hgi
  rw [render_unfold_ok env r r1 r2 dd hd hgv hgi]
  constructor
  · show dd.totalVtxCount ≤ r2.vertexBuffer.len
    rw [h2.1]
    exact h1.2.2.1
  · exact h2.2.2.1

/-- Folding frames never shrinks either capacity. -/
theorem renderSeq_capacity_mono (env : Env) (dds : List DrawData) :
    ∀ r : Renderer,
      r.vertexBuffer.len ≤ (renderSeq env r dds).vertexBuffer.len ∧
      r.indexBuffer.len ≤ (renderSeq env r dds).indexBuffer.len := by
  induction dds with
  | nil =>
    intro r
    exact ⟨le_refl _, le_refl _⟩
  | cons dd dds ih =>
    intro r
    obtain ⟨h1v, h1i⟩ := render_capacity_step env r dd
    obtain ⟨h2v, h2i⟩ := ih (render env r dd).1
    constructor
    · show r.vertexBuffer.len ≤ (renderSeq env (render env r dd).1 dds).vertexBuffer.len
      omega
    · show r.indexBuffer.len ≤ (renderSeq env (render env r dd).1 dds).indexBuffer.len
      omega

theorem renderSeq_append (env : Env) (a b : List DrawData) :
    ∀ r : Renderer, renderSeq env r (a ++ b) = renderSeq env (renderSeq env r a) b := by
  induction a with
  | nil => intro r; rfl
  | cons dd dds ih =>
    intro r
    show renderSeq env (render env r dd).1 (dds ++ b) = _
    rw [ih]
    rfl

/-- After folding a list of well-formed frames (positive display size) with
succeeding allocators, every frame's totals are below the final capacities. -/
theorem renderSeq_capacity_reach (env : Env) (dds : List DrawData)
    (hav : ∀ n, (env.allocVtx n).isSome = true)
    (hai : ∀ n, (env.allocIdx n).isSome = true) :
    ∀ r : Renderer,
      (∀ dd ∈ dds, 0 < dd.displaySize.1 ∧ 0 < dd.displaySize.2) →
      ∀ dd ∈ dds,
        dd.totalVtxCount ≤ (renderSeq env r dds).vertexBuffer.len ∧
        dd.totalIdxCount ≤ (renderSeq env r dds).indexBuffer.len := by
  induction dds with
  | nil =>
    intro r _ dd hdd
    cases hdd
  | cons d dds ih =>
    intro r hpos dd hdd
    have hd : ¬(d.displaySize.1 ≤ 0 ∨ d.displaySize.2 ≤ 0) := by
      have := hpos d (List.mem_cons_self d dds)
      push_neg
      exact this
    cases hdd with
    | head =>
      obtain ⟨h1v, h1i⟩ := render_capacity_reach env r d hd hav hai
      obtain ⟨h2v, h2i⟩ := renderSeq_capacity_mono env dds (render env r d).1
      constructor
      · show d.totalVtxCount ≤ (renderSeq env (render env r d).1 dds).vertexBuffer.len
        omega
      · show d.totalIdxCount ≤ (renderSeq env (render env r d).1 dds).indexBuffer.len
        omega
    | tail _ htail =>
      exact ih (render env r d).1
        (fun x hx => hpos x (List.mem_cons_of_mem d hx)) dd htail

/-- Reallocation is skipped whenever the frame's count fits the capacity. -/
theorem render_no_realloc_vtx (env : Env) (r : Renderer) (dd : DrawData)
    (hv : dd.totalVtxCount ≤ r.vertexBuffer.len) :
    (render env r dd).1.vertexBuffer = r.vertexBuffer := by
  by_cases hd : dd.displaySize.1 ≤ 0 ∨ dd.displaySize.2 ≤ 0
  · unfold render
    rw [if_pos hd]
  · have hgv : growVertex env r dd = .ok r := by
      unfold growVertex
      rw [if_neg (Nat.not_lt.mpr hv)]
    cases hgi : growIndex env r dd with
    | error e => rw [render_unfold_idxFail env r r dd e hd hgv hgi]
    | ok r2 =>
      rw [render_unfold_ok env r r r2 dd hd hgv hgi]
      exact (growIndex_ok_spec env r r2 dd hgi).1

theorem render_no_realloc_idx (env : Env) (r : Renderer) (dd : DrawData)
    (hi : dd.totalIdxCount ≤ r.indexBuffer.len) :
    (render env r dd).1.indexBuffer = r.indexBuffer := by
  by_cases hd : dd.displaySize.1 ≤ 0 ∨ dd.displaySize.2 ≤ 0
  · unfold render
    rw [if_pos hd]
  · cases hgv : growVertex env r dd with
    | error e => rw [render_unfold_vtxFail env r dd e hd hgv]
    | ok r1 =>
      have h1 := growVertex_ok_spec env r r1 dd hgv
      have hi1 : dd.totalIdxCount ≤ r1.indexBuffer.len := by
        rw [h1.1]
        exact hi
      have hgi : growIndex env r1 dd = .ok r1 := by
        unfold growIndex
        rw [if_neg (Nat.not_lt.mpr hi1)]
      rw [render_unfold_ok env r r1 r1 dd hd hgv hgi]
      exact h1.1

/-- A triggered, successful reallocation sizes the new buffer at
count + slack. -/
theorem render_slack_vtx (env : Env) (r : Renderer) (dd : DrawData)
    (hd : ¬(dd.displaySize.1 ≤ 0 ∨ dd.displaySize.2 ≤ 0))
    (hlt : r.vertexBuffer.len < dd.totalVtxCount)
    (ha : (env.allocVtx dd.totalVtxCount).isSome = true) :
    (render env r dd).1.vertexBuffer.len =
      dd.totalVtxCount + VERTEX_BUF_ADD_CAPACITY := by
  obtain ⟨r1, hgv⟩ := growVertex_total env r dd ha
  have h1 := growVertex_ok_spec env r r1 dd hgv
  have hlen := h1.2.2.2.2 hlt
  cases hgi : growIndex env r1 dd with
  | error e =>
    rw [render_unfold_idxFail env r r1 dd e hd hgv hgi]
    exact hlen
  | ok r2 =>
    rw [render_unfold_ok env r r1 r2 dd hd hgv hgi]
    show r2.vertexBuffer.len = _
    rw [(growIndex_ok_spec env r1 r2 dd hgi).1]
    exact hlen

theorem render_slack_idx (env : Env) (r : Renderer) (dd : DrawData)
    (hd : ¬(dd.displaySize.1 ≤ 0 ∨ dd.displaySize.2 ≤ 0))
    (hlt : r.indexBuffer.len < dd.totalIdxCount)
    (hav : (env.allocVtx dd.totalVtxCount).isSome = true)
    (hai : (env.allocIdx dd.totalIdxCount).isSome = true) :
    (render env r dd).1.indexBuffer.len =
      dd.totalIdxCount + INDEX_BUF_ADD_CAPACITY := by
  obtain ⟨r1, hgv⟩ := growVertex_total env r dd hav
  have h1 := growVertex_ok_spec env r r1 dd hgv
  have hlt1 : r1.indexBuffer.len < dd.totalIdxCount := by
    rw [h1.1]
    exact hlt
  obtain ⟨r2, hgi⟩ := growIndex_total env r1 dd hai
  have h2 := growIndex_ok_spec env r1 r2 dd hgi
  rw [render_unfold_ok env r r1 r2 dd hd hgv hgi]
  exact h2.2.2.2.2 hlt1

/-- A failed vertex reallocation aborts the call with the previous renderer
untouched. -/
theorem render_vtx_alloc_fail (env : Env) (r : Renderer) (dd : DrawData)
    (hd : ¬(dd.displaySize.1 ≤ 0 ∨ dd.displaySize.2 ≤ 0))
    (hlt : r.vertexBuffer.len < dd.totalVtxCount)
    (hfail : env.allocVtx dd.totalVtxCount = none) :
    render env r dd = (r, [], .error .bufferCreate) := by
  have hgv : growVertex env r dd = .error .bufferCreate := by
    unfold growVertex
    rw [if_pos hlt, hfail]
  exact render_unfold_vtxFail env r dd Err.bufferCreate hd hgv

/-- A failed index reallocation (vertex buffer already adequate) aborts the
call with the previous renderer untouched. -/
theorem render_idx_alloc_fail (env : Env) (r : Renderer) (dd : DrawData)
    (hd : ¬(dd.displaySize.1 ≤ 0 ∨ dd.displaySize.2 ≤ 0))
    (hvok : dd.totalVtxCount ≤ r.vertexBuffer.len)
    (hlt : r.indexBuffer.len < dd.totalIdxCount)
    (hfail : env.allocIdx dd.totalIdxCount = none) :
    render env r dd = (r, [], .error .bufferCreate) := by
  have hgv : growVertex env r dd = .ok r := by
    unfold growVertex
    rw [if_neg (Nat.not_lt.mpr hvok)]
  have hgi : growIndex env r dd = .error .bufferCreate := by
    unfold growIndex
    rw [if_pos hlt, hfail]
  exact render_unfold_idxFail env r r dd Err.bufferCreate hd hgv hgi

/-- C5 (amended): over any sequence of frames with positive display size and
succeeding reallocations, each buffer's capacity never decreases and stays at
or above every processed frame's total; independently of that, a frame whose
totals fit triggers no reallocation, a triggered successful reallocation sizes
the buffer at count + slack (5000 vertices / 10000 indices), and a failed
reallocation returns the error with the previous renderer left in place. -/
theorem buffer_growth_monotone (env : Env) (r0 : Renderer) (dds : List DrawData)
    (hpos : ∀ dd ∈ dds, 0 < dd.displaySize.1 ∧ 0 < dd.displaySize.2)
    (hav : ∀ n, (env.allocVtx n).isSome = true)
    (hai : ∀ n, (env.allocIdx n).isSome = true) :
    (∀ i j, i ≤ j →
      (renderSeq env r0 (dds.take i)).vertexBuffer.len ≤
        (renderSeq env r0 (dds.take j)).vertexBuffer.len ∧
      (renderSeq env r0 (dds.take i)).indexBuffer.len ≤
        (renderSeq env r0 (dds.take j)).indexBuffer.len) ∧
    (∀ i, ∀ dd ∈ dds.take i,
      dd.totalVtxCount ≤ (renderSeq env r0 (dds.take i)).vertexBuffer.len ∧
      dd.totalIdxCount ≤ (renderSeq env r0 (dds.take i)).indexBuffer.len) ∧
    (∀ (r : Renderer) (dd : DrawData),
      (dd.totalVtxCount ≤ r.vertexBuffer.len →
        (render env r dd).1.vertexBuffer = r.vertexBuffer) ∧
      (dd.totalIdxCount ≤ r.indexBuffer.len →
        (render env r dd).1.indexBuffer = r.indexBuffer)) ∧
    (∀ (r : Renderer) (dd : DrawData),
      ¬(dd.displaySize.1 ≤ 0 ∨ dd.displaySize.2 ≤ 0) →
      (r.vertexBuffer.len < dd.totalVtxCount →
        (render env r dd).1.vertexBuffer.len =
          dd.totalVtxCount + VERTEX_BUF_ADD_CAPACITY) ∧
      (r.indexBuffer.len < dd.totalIdxCount →
        (render env r dd).1.indexBuffer.len =
          dd.totalIdxCount + INDEX_BUF_ADD_CAPACITY)) ∧
    (∀ (env2 : Env) (r : Renderer) (dd : DrawData),
      ¬(dd.displaySize.1 ≤ 0 ∨ dd.displaySize.2 ≤ 0) →
      (r.vertexBuffer.len < dd.totalVtxCount →
        env2.allocVtx dd.totalVtxCount = none →
        render env2 r dd = (r, [], .error .bufferCreate)) ∧
      (dd.totalVtxCount ≤ r.vertexBuffer.len →
        r.indexBuffer.len < dd.totalIdxCount →
        env2.allocIdx dd.totalIdxCount = none →
        render env2 r dd = (r, [], .error .bufferCreate))) := by
  refine ⟨?_, ?_, ?_, ?_, ?_⟩
  · intro i j hij
    have hsplit : dds.take i ++ (dds.take j).drop i = dds.take j := by
      conv_rhs => rw [← List.take_append_drop i (dds.take j)]
      rw [List.take_take, min_eq_left hij]
    rw [← hsplit, renderSeq_append]
    exact renderSeq_capacity_mono env _ _
  · intro i dd hdd
    exact renderSeq_capacity_reach env (dds.take i) hav hai r0
      (fun x hx => hpos x (List.mem_of_mem_take hx)) dd hdd
  · intro r dd
    exact ⟨render_no_realloc_vtx env r dd, render_no_realloc_idx env r dd⟩
  · intro r dd hd
    exact ⟨fun hlt => render_slack_vtx env r dd hd hlt (hav _),
      fun hlt => render_slack_idx env r dd hd hlt (hav _) (hai _)⟩
  · intro env2 r dd hd
    exact ⟨fun hlt hfail => render_vtx_alloc_fail env2 r dd hd hlt hfail,
      fun hvok hlt hfail => render_idx_alloc_fail env2 r dd hd hvok hlt hfail⟩

theorem buffer_growth_monotone_witness :
    (∀ dd ∈ [ddGrow1, ddGrow2], 0 < dd.displaySize.1 ∧ 0 < dd.displaySize.2) ∧
    (∀ n, (envOK.allocVtx n).isSome = true) ∧
    (∀ n, (envOK.allocIdx n).isSome = true) ∧
    ddGrow1.totalVtxCount ≤
      (renderSeq envOK baseRenderer ([ddGrow1, ddGrow2].take 2)).vertexBuffer.len ∧
    (renderSeq envOK baseRenderer ([ddGrow1, ddGrow2].take 1)).vertexBuffer.len ≤
      (renderSeq envOK baseRenderer ([ddGrow1, ddGrow2].take 2)).vertexBuffer.len := by
  have hpos : ∀ dd ∈ [ddGrow1, ddGrow2], 0 < dd.displaySize.1 ∧ 0 < dd.displaySize.2 := by
    intro dd hdd
    rcases List.mem_cons.mp hdd with h | h
    · subst h
      constructor <;> norm_num [ddGrow1]
    · rcases List.mem_cons.mp h with h2 | h2
      · subst h2
        constructor <;> norm_num [ddGrow2]
      · cases h2
  have hav : ∀ n, (envOK.allocVtx n).isSome = true := fun n => rfl
  have hai : ∀ n, (envOK.allocIdx n).isSome = true := fun n => rfl
  have h := buffer_growth_monotone envOK baseRenderer [ddGrow1, ddGrow2] hpos hav hai
  exact ⟨hpos, hav, hai, (h.2.1 2 ddGrow1 (by simp)).1, (h.1 1 2 (by omega)).1⟩

/-- C5 (counterexample): the claim as stated fails for a frame with display
size (0, 0): the early exit runs before buffer growth, so a frame with 6000
vertices leaves the vertex capacity at 5000 — below max(v₁…vᵢ). -/
theorem degenerate_frame_skips_growth :
    ddBigDegenerate.totalVtxCount = 6000 ∧
    (renderSeq envOK baseRenderer [ddBigDegenerate]).vertexBuffer.len = 5000 ∧
    ¬(ddBigDegenerate.totalVtxCount ≤
      (renderSeq envOK baseRenderer [ddBigDegenerate]).vertexBuffer.len) := by
  refine ⟨rfl, rfl, ?_⟩
  intro hc
  have h5 : (renderSeq envOK baseRenderer [ddBigDegenerate]).vertexBuffer.len = 5000 := rfl
  rw [h5] at hc
  have h6 : ddBigDegenerate.totalVtxCount = 6000 := rfl
  rw [h6] at hc
  omega

end ImguiDx11
